import Mathlib

/-!
Shallow embedding of the ParticleEngine repository (TypeScript) for
specification verification.

Numbers are modelled as exact rationals (ℚ).  Randomness is modelled by an
explicit stream of pre-drawn values in the role of successive results of
Math.random(); every operation that consumes randomness threads the stream
explicitly.  Trigonometry (Math.cos / Math.sin of the spawn direction) is
modelled by an opaque environment of functions, since none of the verified
properties depend on their values.

Embedded source files:
  * src/ts/ParticleMath.ts            (random helpers)
  * src/unnamed/part_002  Particle    (the later Particle iteration, with jitter)
  * src/unnamed/part_001  Emitter     (the later Emitter iteration, with the
                                       drift-cycle state machine)
  * src/unnamed/part_003  Engine      (emitter collection management)
-/

/-- Stream of pre-drawn Math.random() results. -/
structure Rng where
  f : Nat → ℚ

/-- Draw the next random value and advance the stream. -/
def Rng.next (g : Rng) : ℚ × Rng :=
  (g.f 0, ⟨fun n => g.f (n + 1)⟩)

/-- Opaque trigonometric environment: cosine and sine of an angle in degrees.
The simulation claims verified here never depend on the concrete values. -/
structure Env where
  cosDeg : ℚ → ℚ
  sinDeg : ℚ → ℚ

/-- JS Math.floor on rationals. -/
def jsFloor (q : ℚ) : ℚ := ((⌊q⌋ : ℤ) : ℚ)

/-- ParticleMath.getRandomBetween: Math.floor(random * (max - min + 1) + min),
with the Math.random() draw `r` made explicit. -/
def getRandomBetween (r min max : ℚ) : ℚ := jsFloor (r * (max - min + 1) + min)

/-- ParticleMath.getRandomFloatBetween: random * (max - min) + min. -/
def getRandomFloatBetween (r min max : ℚ) : ℚ := r * (max - min) + min

/-- ParticleMath.reverseSign. -/
def reverseSign (v : ℚ) : ℚ := v * -1

/-- ParticleMath.randomizeSign, with the Math.random() draw of getRandomFlag
made explicit (getRandomFlag is Math.random() >= 0.5). -/
def randomizeSign (r v : ℚ) : ℚ := if r ≥ 1/2 then v * -1 else v

/-- Particle state (src/unnamed/part_002).  The `color` field of the source is
never assigned and never influences behavior, so it is omitted; the
`direction` option is consumed only to compute the initial force vector. -/
structure Particle where
  x : ℚ
  y : ℚ
  speed : ℚ
  drift : ℚ
  fx : ℚ
  fy : ℚ
  gravity : ℚ
  jitter : ℚ
  jitterForce : ℚ
  jitterInterval : ℚ
  lastJitter : ℚ
  age : ℚ
  lifespan : ℚ
  birthdate : ℚ
  dead : Bool
  size : ℚ
deriving DecidableEq

/-- Particle.setDrift. -/
def Particle.setDrift (p : Particle) (drift : ℚ) : Particle :=
  { p with drift := drift }

/-- Particle.isDead. -/
def Particle.isDead (p : Particle) : Bool := p.dead

/-- Particle.applyGravity: fy += gravity * size. -/
def Particle.applyGravity (p : Particle) : Particle :=
  { p with fy := p.fy + p.gravity * p.size }

/-- Particle.applyDrift: fx += drift * size. -/
def Particle.applyDrift (p : Particle) : Particle :=
  { p with fx := p.fx + p.drift * p.size }

/-- Particle.applyJitter (src/unnamed/part_002 lines 176-187). -/
def Particle.applyJitter (p : Particle) (timestamp delta : ℚ) : Particle :=
  if p.jitter > 0 then
    let p1 := if timestamp - p.lastJitter ≥ p.jitterInterval then
                { p with jitterForce := reverseSign p.jitterForce, lastJitter := timestamp }
              else p
    let framesToNextInterval := (p1.jitterInterval - (timestamp - p1.lastJitter)) / delta
    let scale := framesToNextInterval - ((p1.jitterInterval / delta) / 2)
    { p1 with fx := p1.fx + (p1.jitterForce * scale) / p1.speed }
  else p

/-- Particle.update (src/unnamed/part_002 lines 113-140): age is recomputed,
the lifespan check may mark the particle dead, a dead particle then does
nothing further; otherwise gravity, drift and jitter accumulate into the
force vector and the position advances by an Euler step. -/
def Particle.update (p : Particle) (timestamp delta : ℚ) : Particle :=
  let p1 := { p with age := timestamp - p.birthdate }
  let p2 := if p1.lifespan > 0 ∧ p1.age ≥ p1.lifespan then { p1 with dead := true } else p1
  if p2.dead then p2
  else
    let p5 := ((p2.applyGravity).applyDrift).applyJitter timestamp delta
    { p5 with x := p5.x + (p5.speed * p5.fx) * (delta / 1000),
              y := p5.y + (p5.speed * p5.fy) * (delta / 1000) }

/-- A drawing command issued to the canvas context. -/
inductive DrawCmd where
  | fillRect (x y w h : ℚ)
deriving DecidableEq

/-- Particle.render: a dead particle draws nothing, a live one fills a rect at
its position scaled by its size. -/
def Particle.render (p : Particle) : List DrawCmd :=
  if p.dead then [] else [DrawCmd.fillRect p.x p.y (10 * p.size) (10 * p.size)]

/-- Options snapshot passed by the emitter to the Particle constructor. -/
structure ParticleOptions where
  x : ℚ
  y : ℚ
  gravity : ℚ
  size : ℚ
  lifespan : ℚ
  direction : ℚ
  speed : ℚ
  jitter : ℚ

/-- The Particle constructor (src/unnamed/part_002 lines 68-96): copies the
options, sets the outward force from the direction angle, takes the absolute
value of jitter, and when jitter is positive rolls the jitter force, its sign,
and the jitter interval (three Math.random() draws).  Fields left undefined by
the source when jitter is zero are represented by 0; they are never read in
that case because applyJitter is guarded by jitter > 0. -/
def Particle.create (env : Env) (timestamp : ℚ) (o : ParticleOptions) (g : Rng) :
    Particle × Rng :=
  let jitter := |o.jitter|
  let base : Particle :=
    { x := o.x, y := o.y, speed := o.speed, drift := 0,
      fx := env.cosDeg o.direction, fy := env.sinDeg o.direction,
      gravity := o.gravity, jitter := jitter,
      jitterForce := 0, jitterInterval := 0, lastJitter := 0,
      age := 0, lifespan := o.lifespan, birthdate := timestamp,
      dead := false, size := o.size }
  if jitter > 0 then
    let s1 := g.next
    let jf0 := getRandomFloatBetween s1.1 (jitter - 1/10) (jitter + 1/10)
    let s2 := s1.2.next
    let jf := randomizeSign s2.1 jf0
    let minInterval := max (500 - jitter * 100) 0
    let maxInterval := max (700 - jitter * 100) 100
    let s3 := s2.2.next
    let interval := getRandomBetween s3.1 minInterval maxInterval
    ({ base with jitterForce := jf, lastJitter := timestamp, jitterInterval := interval }, s3.2)
  else
    (base, g)

/-- A min/max range (the Range interface of the source). -/
structure RangeQ where
  min : ℚ
  max : ℚ
deriving DecidableEq

/-- The Drift configuration object (value, interval range, duration range). -/
structure DriftCfg where
  value : ℚ
  interval : RangeQ
  duration : RangeQ
deriving DecidableEq

/-- The `drift` option is number | Drift in the source. -/
inductive DriftOption where
  | num (v : ℚ)
  | obj (d : DriftCfg)
deriving DecidableEq

/-- Emission mode of the later Emitter iteration. -/
inductive Mode where
  | burst
  | flow
deriving DecidableEq

/-- Emitter state (src/unnamed/part_001).  Configuration fields carry the class
defaults as structure defaults; the mutable simulation state starts as in the
class field initializers (the unused `driftTimer` field is omitted).  The
`driftInterval` and `driftDuration` fields are rolled in the constructor when a
Drift object is configured; concrete instances below supply them directly. -/
structure Emitter where
  particles : List Particle := []
  timestamp : ℚ := 0
  lastFrame : ℚ := 0
  lastEmittedTime : ℚ := 0
  allParticlesCreated : Bool := false
  driftInterval : ℚ := 0
  lastDriftChange : ℚ := 0
  driftDuration : ℚ := 0
  driftValue : ℚ := 0
  drifting : Bool := false
  x : ℚ := 0
  y : ℚ := 0
  width : ℚ := 20
  height : ℚ := 20
  mode : Mode := .burst
  gravity : ℚ := 0
  drift : DriftOption := .obj { value := 0, interval := ⟨0, 0⟩, duration := ⟨0, 0⟩ }
  size : RangeQ := ⟨1, 1⟩
  maxParticles : Nat := 1500
  particleLife : RangeQ := ⟨2500, 3000⟩
  frequency : RangeQ := ⟨100, 400⟩
  angle : RangeQ := ⟨0, 360⟩
  speed : RangeQ := ⟨100, 400⟩
  jitter : ℚ := 0
deriving DecidableEq

/-- The constant driftDecay field of the Emitter class. -/
def driftDecay : ℚ := 1/1000

/-- Emitter.createParticle (src/unnamed/part_001 lines 277-304): rolls the
spawn position, lifespan, direction, speed and size independently for the one
particle being created, then invokes the Particle constructor. -/
def Emitter.createParticle (env : Env) (e : Emitter) (g : Rng) : Particle × Rng :=
  let s1 := g.next
  let particleX := getRandomBetween s1.1 e.x (e.x + e.width)
  let s2 := s1.2.next
  let particleY := getRandomBetween s2.1 e.y (e.y + e.height)
  let s3 := s2.2.next
  let lifespan := getRandomBetween s3.1 e.particleLife.min e.particleLife.max
  let s4 := s3.2.next
  let direction := getRandomBetween s4.1 e.angle.min e.angle.max
  let s5 := s4.2.next
  let speed := getRandomBetween s5.1 e.speed.min e.speed.max
  let s6 := s5.2.next
  let size := getRandomFloatBetween s6.1 e.size.min e.size.max
  Particle.create env e.timestamp
    { x := particleX, y := particleY, gravity := e.gravity, size := size,
      lifespan := lifespan, direction := direction, speed := speed, jitter := e.jitter } s6.2

/-- The burst loop of createParticlesIfNecessary: create and push n particles
in creation order. -/
def Emitter.createN (env : Env) (e : Emitter) (n : Nat) (g : Rng) : List Particle × Rng :=
  match n with
  | 0 => ([], g)
  | n + 1 =>
    let s := e.createParticle env g
    let rest := e.createN env n s.2
    (s.1 :: rest.1, rest.2)

/-- Emitter.createParticlesIfNecessary (src/unnamed/part_001 lines 245-272).
burst: push maxParticles new particles and latch allParticlesCreated.
flow: when the cap is infinite (0) or not reached, and the rolled frequency
has elapsed since the last emission, push one particle, stamp
lastEmittedTime, and latch allParticlesCreated when the count now equals
maxParticles. -/
def Emitter.createParticlesIfNecessary (env : Env) (e : Emitter) (g : Rng) : Emitter × Rng :=
  match e.mode with
  | .burst =>
    let (ps, g) := e.createN env e.maxParticles g
    ({ e with particles := e.particles ++ ps, allParticlesCreated := true }, g)
  | .flow =>
    if e.maxParticles = 0 ∨ e.particles.length < e.maxParticles then
      let elapsedSinceEmit := e.timestamp - e.lastEmittedTime
      let r := g.next
      let frequency := getRandomBetween r.1 e.frequency.min e.frequency.max
      if elapsedSinceEmit ≥ frequency then
        let s := e.createParticle env r.2
        let particles := e.particles ++ [s.1]
        ({ e with particles := particles, lastEmittedTime := e.timestamp,
                  allParticlesCreated := particles.length = e.maxParticles }, s.2)
      else (e, r.2)
    else (e, g)

/-- The drift-cycle advance inside Emitter.updateParticle
(src/unnamed/part_001 lines 309-340), for a Drift configuration object:
IDLE to DRIFTING when the interval has elapsed (sets the value, re-rolls the
duration, restamps lastDriftChange); once the duration has elapsed the value
decays by driftDecay per call, and only when it would go negative is it
clamped to 0, the interval re-rolled, lastDriftChange restamped and the
drifting flag cleared. -/
def Emitter.driftBegin (e : Emitter) (d : DriftCfg) (g : Rng) : Emitter × Rng :=
  if e.timestamp - e.lastDriftChange > e.driftInterval ∧ e.drifting = false then
    let r := g.next
    ({ e with driftValue := d.value,
              driftDuration := getRandomBetween r.1 d.duration.min d.duration.max,
              lastDriftChange := e.timestamp,
              drifting := true }, r.2)
  else (e, g)

/-- The second half of the drift-cycle advance: once the duration has elapsed
the value decays by driftDecay per call, and only when it would go negative is
it clamped to 0, the interval re-rolled, lastDriftChange restamped and the
drifting flag cleared. -/
def Emitter.driftEnd (e : Emitter) (d : DriftCfg) (g : Rng) : Emitter × Rng :=
  if e.drifting = true ∧ e.timestamp - e.lastDriftChange ≥ e.driftDuration then
    let dv := e.driftValue - driftDecay
    if dv < 0 then
      let r := g.next
      ({ e with driftValue := 0,
                driftInterval := getRandomBetween r.1 d.interval.min d.interval.max,
                lastDriftChange := e.timestamp,
                drifting := false }, r.2)
    else ({ e with driftValue := dv }, g)
  else (e, g)

def Emitter.driftStep (e : Emitter) (d : DriftCfg) (g : Rng) : Emitter × Rng :=
  let s := e.driftBegin d g
  s.1.driftEnd d s.2

/-- Emitter.updateParticle (src/unnamed/part_001 lines 306-348): when the
drift option is truthy (a nonzero number, or any Drift object) the drift value
is pushed into the particle, advancing the shared cycle first for an object;
then the particle's own update runs with the frame delta. -/
def Emitter.updateParticle (_env : Env) (e : Emitter) (p : Particle) (g : Rng) :
    Emitter × Particle × Rng :=
  match e.drift with
  | .num v =>
    if v ≠ 0 then
      (e, (p.setDrift v).update e.timestamp (e.timestamp - e.lastFrame), g)
    else
      (e, p.update e.timestamp (e.timestamp - e.lastFrame), g)
  | .obj d =>
    let s := e.driftStep d g
    (s.1, (p.setDrift s.1.driftValue).update s.1.timestamp (s.1.timestamp - s.1.lastFrame), s.2)

/-- The forEach loop of Emitter.update: updateParticle over the particle list
in order, threading the emitter's drift state and the random stream. -/
def Emitter.updateAll (env : Env) (e : Emitter) (ps : List Particle) (g : Rng) :
    Emitter × List Particle × Rng :=
  match ps with
  | [] => (e, [], g)
  | p :: rest =>
    let s := e.updateParticle env p g
    let sr := s.1.updateAll env rest s.2.2
    (sr.1, s.2.1 :: sr.2.1, sr.2.2)

/-- Emitter.update (src/unnamed/part_001 lines 209-229): store the timestamp,
create particles unless all have been created, update every particle, purge
the dead ones, and record the frame. -/
def Emitter.update (env : Env) (e : Emitter) (timestamp : ℚ) (g : Rng) : Emitter × Rng :=
  let e1 : Emitter := { e with timestamp := timestamp }
  let s1 := if e1.allParticlesCreated then (e1, g) else e1.createParticlesIfNecessary env g
  let s2 := s1.1.updateAll env s1.1.particles s1.2
  let e3 : Emitter := { s2.1 with particles := s2.2.1.filter (fun p => !p.isDead) }
  ({ e3 with lastFrame := timestamp }, s2.2.2)

/-- Emitter.render: render every live particle in collection order. -/
def Emitter.renderAll (e : Emitter) : List DrawCmd :=
  e.particles.flatMap Particle.render

/-- A sequence of Emitter.update calls at the given timestamps. -/
def Emitter.updates (env : Env) (e : Emitter) (ts : List ℚ) (g : Rng) : Emitter × Rng :=
  match ts with
  | [] => (e, g)
  | t :: rest =>
    let s := e.update env t g
    s.1.updates env rest s.2

/-- Engine state (src/unnamed/part_003).  Emitters are represented by their
engine-assigned numeric ids, which is what the collection-management claims
depend on: `emitters` is the ordered collection (insertion order) and
`emitterIdCount` the id counter. -/
structure Engine where
  emitters : List Nat := []
  emitterIdCount : Nat := 0
deriving DecidableEq

/-- Engine.createEmitter: increments the id counter, appends a new emitter
bound to that id, returns the id. -/
def Engine.createEmitter (e : Engine) : Engine × Nat :=
  let id := e.emitterIdCount + 1
  ({ emitters := e.emitters ++ [id], emitterIdCount := id }, id)

/-- Engine.getEmitter: Array.prototype.find by id; `none` models the
undefined result of a miss. -/
def Engine.getEmitter (e : Engine) (id : Nat) : Option Nat :=
  e.emitters.find? (fun em => em = id)

/-- JS Array.prototype.indexOf on the result of getEmitter: -1 when the
argument is undefined (a lookup miss), else the index of the found element. -/
def jsIndexOf (l : List Nat) (x : Option Nat) : Int :=
  match x with
  | none => -1
  | some v =>
    match l.findIdx? (fun em => em = v) with
    | some i => (i : Int)
    | none => -1

/-- JS Array.prototype.splice(start, 1): a negative start is clamped to
max(length + start, 0), a start beyond the end to length; one element at the
resulting index is removed. -/
def jsSpliceRemove1 (l : List Nat) (start : Int) : List Nat :=
  let len : Int := (l.length : Int)
  let s : Nat := (if start < 0 then max (len + start) 0 else min start len).toNat
  l.take s ++ l.drop (s + 1)

/-- Engine.removeEmitter (src/unnamed/part_003 lines 77-79):
splice(indexOf(getEmitter(id)), 1). -/
def Engine.removeEmitter (e : Engine) (id : Nat) : Engine :=
  { e with emitters := jsSpliceRemove1 e.emitters (jsIndexOf e.emitters (e.getEmitter id)) }

/-- The trivial trigonometric environment used by concrete runs. -/
def env0 : Env := ⟨fun _ => 0, fun _ => 0⟩

/-- The all-zero random stream used by concrete runs. -/
def rng0 : Rng := ⟨fun _ => 0⟩

/-- Fields of the particle that survive the jitter force application. -/
theorem Particle.applyJitter_proj (p : Particle) (t d : ℚ) :
    (p.applyJitter t d).dead = p.dead ∧
    (p.applyJitter t d).birthdate = p.birthdate ∧
    (p.applyJitter t d).lifespan = p.lifespan ∧
    (p.applyJitter t d).drift = p.drift ∧
    (p.applyJitter t d).age = p.age ∧
    (p.applyJitter t d).x = p.x ∧
    (p.applyJitter t d).y = p.y := by
  simp only [Particle.applyJitter]
  repeat' split
  all_goals simp

/-- Behavior of the dead flag across one particle update: it stays set, and it
becomes set exactly when the lifespan check fires. -/
theorem Particle.update_dead_iff (p : Particle) (t d : ℚ) :
    (p.update t d).dead = true ↔
      (p.dead = true ∨ (p.lifespan > 0 ∧ t - p.birthdate ≥ p.lifespan)) := by
  simp only [Particle.update, Particle.applyGravity, Particle.applyDrift]
  by_cases hc : p.lifespan > 0 ∧ t - p.birthdate ≥ p.lifespan
  · simp [hc]
  · simp only [hc, if_false, if_neg]
    by_cases hd : p.dead
    · simp [hd]
    · simp [hd, hc, (Particle.applyJitter_proj _ t d).1]

/-- A particle update never changes the birthdate, the lifespan or the pushed
drift value. -/
theorem Particle.update_proj (p : Particle) (t d : ℚ) :
    (p.update t d).birthdate = p.birthdate ∧
    (p.update t d).lifespan = p.lifespan ∧
    (p.update t d).drift = p.drift := by
  simp only [Particle.update, Particle.applyGravity, Particle.applyDrift]
  repeat' split
  all_goals simp [Particle.applyJitter_proj]

/-- Updating an already-dead particle only recomputes its age. -/
theorem Particle.update_of_dead (p : Particle) (t d : ℚ) (h : p.dead = true) :
    p.update t d = { p with age := t - p.birthdate } := by
  cases p
  simp only [Particle.update] at *
  subst h
  repeat' split
  all_goals simp_all

/-- A particle subjected to a sequence of update calls (timestamp, delta). -/
def Particle.runUpdates (p : Particle) (tds : List (ℚ × ℚ)) : Particle :=
  match tds with
  | [] => p
  | td :: rest => (p.update td.1 td.2).runUpdates rest

/-- A dead particle stays dead across any sequence of updates. -/
theorem Particle.runUpdates_dead (p : Particle) (tds : List (ℚ × ℚ)) (h : p.dead = true) :
    (p.runUpdates tds).dead = true := by
  induction tds generalizing p with
  | nil => exact h
  | cons td rest ih =>
    exact ih _ ((Particle.update_dead_iff p td.1 td.2).mpr (Or.inl h))

/-- Operations the rest of the system may apply to a particle. -/
inductive ParticleOp where
  | update (t delta : ℚ)
  | setDrift (v : ℚ)

/-- Dispatch one particle operation. -/
def Particle.applyOp (p : Particle) (op : ParticleOp) : Particle :=
  match op with
  | .update t delta => p.update t delta
  | .setDrift v => p.setDrift v

/-- A particle subjected to an arbitrary sequence of operations. -/
def Particle.runOps (p : Particle) (ops : List ParticleOp) : Particle :=
  match ops with
  | [] => p
  | op :: rest => (p.applyOp op).runOps rest

/-- Claim C7: for every particle with lifespan > 0, isDead() returns true
exactly from the first update whose timestamp satisfies
timestamp - birthdate >= lifespan onward, and false before; for lifespan == 0
aging never kills the particle.  Stated as: after any sequence of updates of a
live particle, the dead flag is set iff the lifespan is positive and some
update in the sequence had timestamp - birthdate >= lifespan (applying this to
every prefix gives the exact switch-on point, and for lifespan = 0 the right
side is always false). -/
theorem c7_isDead_lifespan (p : Particle) (tds : List (ℚ × ℚ)) (h : p.dead = false) :
    (p.runUpdates tds).dead = true ↔
      (p.lifespan > 0 ∧ ∃ td ∈ tds, td.1 - p.birthdate ≥ p.lifespan) := by
  induction tds generalizing p with
  | nil => simp [Particle.runUpdates, h]
  | cons td rest ih =>
    simp only [Particle.runUpdates]
    by_cases hc : p.lifespan > 0 ∧ td.1 - p.birthdate ≥ p.lifespan
    · have hd : (p.update td.1 td.2).dead = true :=
        (Particle.update_dead_iff p td.1 td.2).mpr (Or.inr hc)
      rw [Particle.runUpdates_dead _ _ hd]
      simp only [true_iff]
      exact ⟨hc.1, td, List.mem_cons_self td rest, hc.2⟩
    · have hd : (p.update td.1 td.2).dead = false := by
        have hiff := Particle.update_dead_iff p td.1 td.2
        simp [h, hc] at hiff
        exact hiff
      rw [ih _ hd, (Particle.update_proj p td.1 td.2).1, (Particle.update_proj p td.1 td.2).2.1]
      constructor
      · rintro ⟨hl, td', htd', hge⟩
        exact ⟨hl, td', List.mem_cons_of_mem _ htd', hge⟩
      · rintro ⟨hl, td', htd', hge⟩
        rcases List.mem_cons.mp htd' with rfl | hmem
        · exact absurd ⟨hl, hge⟩ hc
        · exact ⟨hl, td', hmem, hge⟩

/-- Witness for C7 at a concrete particle and update sequence. -/
def P7 : Particle :=
  { x := 0, y := 0, speed := 0, drift := 0, fx := 0, fy := 0, gravity := 0,
    jitter := 0, jitterForce := 0, jitterInterval := 0, lastJitter := 0,
    age := 0, lifespan := 10, birthdate := 0, dead := false, size := 1 }

/-- Concrete instance of C7: the particle P7 (lifespan 10, born at 0) updated
at timestamps 5 then 12 is dead iff some update crossed its lifespan. -/
theorem c7_isDead_lifespan_witness :
    (P7.runUpdates [(5, 5), (12, 7)]).dead = true ↔
      (P7.lifespan > 0 ∧ ∃ td ∈ [((5 : ℚ), (5 : ℚ)), (12, 7)], td.1 - P7.birthdate ≥ P7.lifespan) :=
  c7_isDead_lifespan P7 [(5, 5), (12, 7)] rfl

/-- Claim C8 (amended): updating a particle whose dead flag is set performs no
force integration and no position change and leaves every field except `age`
unchanged — the age field alone is recomputed from the timestamp before the
dead check — and rendering a dead particle issues no drawing operation. -/
theorem c8_dead_update_render (p : Particle) (t delta : ℚ) (h : p.dead = true) :
    p.update t delta = { p with age := t - p.birthdate } ∧ p.render = [] :=
  ⟨Particle.update_of_dead p t delta h, by simp [Particle.render, h]⟩

/-- A concrete dead particle used to settle C8. -/
def P8 : Particle :=
  { x := 3, y := 4, speed := 7, drift := 2, fx := 1, fy := 1, gravity := 5,
    jitter := 0, jitterForce := 0, jitterInterval := 0, lastJitter := 0,
    age := 0, lifespan := 100, birthdate := 0, dead := true, size := 1 }

/-- Counterexample to C8 as stated: updating the dead particle P8 at
timestamp 5 writes its age field (0 becomes 5), so the update is not free of
writes. -/
theorem c8_counterexample_age_written :
    (P8.update 5 1).age = 5 ∧ P8.age = 0 ∧ P8.update 5 1 ≠ P8 := by
  have h1 : (P8.update 5 1).age = 5 := by
    rw [Particle.update_of_dead P8 5 1 rfl]
    norm_num [P8]
  refine ⟨h1, rfl, fun he => ?_⟩
  rw [he] at h1
  norm_num [P8] at h1

/-- A concrete dead particle used for the C8 witness. -/
def P8w : Particle :=
  { x := 1, y := 2, speed := 3, drift := 1, fx := 0, fy := 0, gravity := 1,
    jitter := 0, jitterForce := 0, jitterInterval := 0, lastJitter := 0,
    age := 7, lifespan := 50, birthdate := 2, dead := true, size := 1 }

/-- Concrete instance of the amended C8 at the dead particle P8w. -/
theorem c8_dead_update_render_witness :
    P8w.update 9 1 = { P8w with age := 9 - P8w.birthdate } ∧ P8w.render = [] :=
  c8_dead_update_render P8w 9 1 rfl

/-- Claim C10: the dead flag is monotone — no sequence of operations (updates
or emitter-issued drift writes; rendering does not mutate the particle) ever
clears it, so isDead stays true once true. -/
theorem c10_dead_monotone (p : Particle) (ops : List ParticleOp) (h : p.isDead = true) :
    (p.runOps ops).isDead = true := by
  induction ops generalizing p with
  | nil => exact h
  | cons op rest ih =>
    apply ih
    cases op with
    | update t delta =>
      have : (p.update t delta).dead = true :=
        (Particle.update_dead_iff p t delta).mpr (Or.inl h)
      simpa [Particle.isDead, Particle.applyOp] using this
    | setDrift v =>
      simpa [Particle.isDead, Particle.applyOp, Particle.setDrift] using h

/-- A concrete dead particle used for the C10 witness. -/
def P10 : Particle :=
  { x := 0, y := 0, speed := 1, drift := 0, fx := 0, fy := 0, gravity := 0,
    jitter := 0, jitterForce := 0, jitterInterval := 0, lastJitter := 0,
    age := 20, lifespan := 10, birthdate := 0, dead := true, size := 1 }

/-- Concrete instance of C10: P10 stays dead across a drift write and two
further updates. -/
theorem c10_dead_monotone_witness :
    (P10.runOps [ParticleOp.setDrift 3, ParticleOp.update 25 5, ParticleOp.update 30 5]).isDead = true :=
  c10_dead_monotone P10 [ParticleOp.setDrift 3, ParticleOp.update 25 5, ParticleOp.update 30 5] rfl

/-- Claim C9: on a live update the forces are applied in the order gravity,
drift, jitter — gravity adds gravity * size to the y accumulator fy, drift
adds drift * size to the x accumulator fx, jitter (when positive) then adds
its time-windowed term — and the position advances by the explicit Euler step
x += speed * fx * (delta/1000), y += speed * fy * (delta/1000) using the
final accumulators. -/
theorem c9_force_order_euler (p : Particle) (t delta : ℚ) (hd : p.dead = false)
    (hl : ¬(p.lifespan > 0 ∧ t - p.birthdate ≥ p.lifespan)) :
    (p.update t delta).fy = p.fy + p.gravity * p.size ∧
    (p.update t delta).fx = p.fx + p.drift * p.size +
      (if p.jitter > 0 then
        ((if t - p.lastJitter ≥ p.jitterInterval then reverseSign p.jitterForce else p.jitterForce) *
          ((p.jitterInterval -
              (t - (if t - p.lastJitter ≥ p.jitterInterval then t else p.lastJitter))) / delta -
            p.jitterInterval / delta / 2)) / p.speed
       else 0) ∧
    (p.update t delta).x = p.x + p.speed * (p.update t delta).fx * (delta / 1000) ∧
    (p.update t delta).y = p.y + p.speed * (p.update t delta).fy * (delta / 1000) := by
  by_cases hj : p.jitter > 0
  · by_cases hf : t - p.lastJitter ≥ p.jitterInterval
    · simp [Particle.update, Particle.applyGravity, Particle.applyDrift, Particle.applyJitter,
        hd, hl, hj, hf, mul_comm, mul_assoc]
    · simp [Particle.update, Particle.applyGravity, Particle.applyDrift, Particle.applyJitter,
        hd, hl, hj, hf, mul_comm, mul_assoc]
  · simp [Particle.update, Particle.applyGravity, Particle.applyDrift, Particle.applyJitter,
      hd, hl, hj, mul_comm, mul_assoc]

/-- A concrete live particle (infinite lifespan, active jitter) used for the
C9 witness. -/
def P9 : Particle :=
  { x := 1, y := 2, speed := 4, drift := 3, fx := 5, fy := 6, gravity := 7,
    jitter := 2, jitterForce := 2, jitterInterval := 10, lastJitter := 0,
    age := 0, lifespan := 0, birthdate := 0, dead := false, size := 2 }

/-- Concrete instance of C9 at the particle P9 updated at timestamp 3 with
delta 2. -/
theorem c9_force_order_euler_witness :
    (P9.update 3 2).fy = P9.fy + P9.gravity * P9.size ∧
    (P9.update 3 2).fx = P9.fx + P9.drift * P9.size +
      (if P9.jitter > 0 then
        ((if 3 - P9.lastJitter ≥ P9.jitterInterval then reverseSign P9.jitterForce else P9.jitterForce) *
          ((P9.jitterInterval -
              (3 - (if 3 - P9.lastJitter ≥ P9.jitterInterval then (3 : ℚ) else P9.lastJitter))) / 2 -
            P9.jitterInterval / 2 / 2)) / P9.speed
       else 0) ∧
    (P9.update 3 2).x = P9.x + P9.speed * (P9.update 3 2).fx * (2 / 1000) ∧
    (P9.update 3 2).y = P9.y + P9.speed * (P9.update 3 2).fy * (2 / 1000) :=
  c9_force_order_euler P9 3 2 rfl (by decide)

/-- The burst loop creates exactly n particles. -/
theorem Emitter.createN_length (env : Env) (e : Emitter) (n : Nat) (g : Rng) :
    (e.createN env n g).1.length = n := by
  induction n generalizing g with
  | zero => rfl
  | succ n ih => simp [Emitter.createN, ih]

/-- A freshly constructed particle is born at the given timestamp and alive. -/
theorem Particle.create_fresh (env : Env) (t : ℚ) (o : ParticleOptions) (g : Rng) :
    (Particle.create env t o g).1.birthdate = t ∧ (Particle.create env t o g).1.dead = false := by
  by_cases h : |o.jitter| > 0
  · simp [Particle.create, h]
  · simp [Particle.create, h]

/-- A particle created by the emitter is born at the emitter's current
timestamp and alive. -/
theorem Emitter.createParticle_fresh (env : Env) (e : Emitter) (g : Rng) :
    (e.createParticle env g).1.birthdate = e.timestamp ∧
    (e.createParticle env g).1.dead = false := by
  unfold Emitter.createParticle
  exact Particle.create_fresh env e.timestamp _ _

/-- Particles created by the burst loop are born at the emitter's current
timestamp and alive. -/
theorem Emitter.createN_fresh (env : Env) (e : Emitter) (n : Nat) (g : Rng) :
    ∀ p ∈ (e.createN env n g).1, p.birthdate = e.timestamp ∧ p.dead = false := by
  induction n generalizing g with
  | zero => intro p hp; cases hp
  | succ n ih =>
    intro p hp
    simp only [Emitter.createN] at hp
    rcases List.mem_cons.mp hp with rfl | hmem
    · exact Emitter.createParticle_fresh env e g
    · exact ih _ _ hmem

/-- createParticlesIfNecessary only touches the particle list, the emission
timer and the creation latch. -/
theorem Emitter.createPIN_proj (env : Env) (e : Emitter) (g : Rng) :
    (e.createParticlesIfNecessary env g).1.mode = e.mode ∧
    (e.createParticlesIfNecessary env g).1.maxParticles = e.maxParticles ∧
    (e.createParticlesIfNecessary env g).1.timestamp = e.timestamp ∧
    (e.createParticlesIfNecessary env g).1.drift = e.drift ∧
    (e.createParticlesIfNecessary env g).1.lastFrame = e.lastFrame := by
  unfold Emitter.createParticlesIfNecessary
  split
  · simp
  · dsimp only
    split
    · split
      · simp
      · simp
    · simp

/-- In burst mode, createParticlesIfNecessary appends exactly maxParticles new
particles and latches the creation flag. -/
theorem Emitter.createPIN_burst (env : Env) (e : Emitter) (g : Rng) (h : e.mode = .burst) :
    (e.createParticlesIfNecessary env g).1.particles.length
        = e.particles.length + e.maxParticles ∧
    (e.createParticlesIfNecessary env g).1.allParticlesCreated = true := by
  unfold Emitter.createParticlesIfNecessary
  rw [h]
  simp [Emitter.createN_length]

/-- In flow mode with a positive cap, createParticlesIfNecessary keeps the
live count at or below the cap. -/
theorem Emitter.createPIN_flow_le (env : Env) (e : Emitter) (g : Rng)
    (hm : e.mode = .flow) (hpos : 0 < e.maxParticles)
    (hle : e.particles.length ≤ e.maxParticles) :
    (e.createParticlesIfNecessary env g).1.particles.length ≤ e.maxParticles := by
  unfold Emitter.createParticlesIfNecessary
  rw [hm]
  dsimp only
  split
  · next hguard =>
    split
    · simp only [List.length_append, List.length_cons, List.length_nil]
      rcases hguard with h0 | hlt
      · omega
      · omega
    · exact hle
  · exact hle

/-- Shorthand for the emitter fields that the drift-cycle advance and the
per-particle update must preserve. -/
def Emitter.SameShape (e' e : Emitter) : Prop :=
  e'.mode = e.mode ∧ e'.maxParticles = e.maxParticles ∧ e'.timestamp = e.timestamp ∧
  e'.drift = e.drift ∧ e'.lastFrame = e.lastFrame ∧ e'.particles = e.particles ∧
  e'.allParticlesCreated = e.allParticlesCreated

theorem Emitter.SameShape.refl (e : Emitter) : Emitter.SameShape e e :=
  ⟨rfl, rfl, rfl, rfl, rfl, rfl, rfl⟩

theorem Emitter.SameShape.trans {e1 e2 e3 : Emitter}
    (h1 : Emitter.SameShape e1 e2) (h2 : Emitter.SameShape e2 e3) :
    Emitter.SameShape e1 e3 := by
  obtain ⟨a1, b1, c1, d1, f1, g1, h1'⟩ := h1
  obtain ⟨a2, b2, c2, d2, f2, g2, h2'⟩ := h2
  exact ⟨a1.trans a2, b1.trans b2, c1.trans c2, d1.trans d2, f1.trans f2,
    g1.trans g2, h1'.trans h2'⟩

/-- The begin-drift transition leaves everything except the drift-cycle state
untouched. -/
theorem Emitter.driftBegin_proj (e : Emitter) (d : DriftCfg) (g : Rng) :
    Emitter.SameShape (e.driftBegin d g).1 e := by
  unfold Emitter.driftBegin Emitter.SameShape
  split
  all_goals simp

/-- The end-drift decay leaves everything except the drift-cycle state
untouched. -/
theorem Emitter.driftEnd_proj (e : Emitter) (d : DriftCfg) (g : Rng) :
    Emitter.SameShape (e.driftEnd d g).1 e := by
  unfold Emitter.driftEnd Emitter.SameShape
  dsimp only
  split
  · split
    · simp
    · simp
  · simp

/-- The drift-cycle advance leaves everything except the drift-cycle state
untouched. -/
theorem Emitter.driftStep_proj (e : Emitter) (d : DriftCfg) (g : Rng) :
    Emitter.SameShape (e.driftStep d g).1 e := by
  unfold Emitter.driftStep
  exact Emitter.SameShape.trans (Emitter.driftEnd_proj _ d _) (Emitter.driftBegin_proj e d g)

/-- updateParticle leaves everything except the drift-cycle state untouched on
the emitter. -/
theorem Emitter.updateParticle_proj (env : Env) (e : Emitter) (p : Particle) (g : Rng) :
    Emitter.SameShape (e.updateParticle env p g).1 e := by
  cases hD : e.drift with
  | num v =>
    unfold Emitter.updateParticle
    rw [hD]
    dsimp only
    split
    · exact Emitter.SameShape.refl e
    · exact Emitter.SameShape.refl e
  | obj d =>
    unfold Emitter.updateParticle
    rw [hD]
    dsimp only
    exact Emitter.driftStep_proj e d g

/-- The forEach loop leaves everything except the drift-cycle state untouched
on the emitter. -/
theorem Emitter.updateAll_proj (env : Env) (e : Emitter) (ps : List Particle) (g : Rng) :
    Emitter.SameShape (e.updateAll env ps g).1 e := by
  induction ps generalizing e g with
  | nil => exact Emitter.SameShape.refl e
  | cons p rest ih =>
    unfold Emitter.updateAll
    dsimp only
    exact Emitter.SameShape.trans (ih _ _) (Emitter.updateParticle_proj env e p g)

/-- The forEach loop produces one updated particle per input particle. -/
theorem Emitter.updateAll_length (env : Env) (e : Emitter) (ps : List Particle) (g : Rng) :
    (e.updateAll env ps g).2.1.length = ps.length := by
  induction ps generalizing e g with
  | nil => rfl
  | cons p rest ih =>
    unfold Emitter.updateAll
    dsimp only
    simp [ih]

/-- One emitter update never changes the mode, the cap or the drift
configuration, and stores the frame timestamp. -/
theorem Emitter.update_config (env : Env) (e : Emitter) (t : ℚ) (g : Rng) :
    (e.update env t g).1.mode = e.mode ∧
    (e.update env t g).1.maxParticles = e.maxParticles ∧
    (e.update env t g).1.drift = e.drift := by
  unfold Emitter.update
  dsimp only
  split
  · have h := Emitter.updateAll_proj env { e with timestamp := t }
      ({ e with timestamp := t }).particles g
    exact ⟨h.1, h.2.1, h.2.2.2.1⟩
  · have hc := Emitter.createPIN_proj env { e with timestamp := t } g
    have h := Emitter.updateAll_proj env
      (({ e with timestamp := t }).createParticlesIfNecessary env g).1
      (({ e with timestamp := t }).createParticlesIfNecessary env g).1.particles
      (({ e with timestamp := t }).createParticlesIfNecessary env g).2
    exact ⟨h.1.trans hc.1, h.2.1.trans hc.2.1, h.2.2.2.1.trans hc.2.2.2.1⟩

/-- Once allParticlesCreated is latched, an update spawns nothing: the count
can only shrink and the latch stays set. -/
theorem Emitter.update_apc (env : Env) (e : Emitter) (t : ℚ) (g : Rng)
    (h : e.allParticlesCreated = true) :
    (e.update env t g).1.particles.length ≤ e.particles.length ∧
    (e.update env t g).1.allParticlesCreated = true := by
  unfold Emitter.update
  dsimp only
  rw [if_pos (show ({ e with timestamp := t } : Emitter).allParticlesCreated = true from h)]
  dsimp only
  have hs := Emitter.updateAll_proj env { e with timestamp := t }
      ({ e with timestamp := t }).particles g
  constructor
  · calc ((({ e with timestamp := t } : Emitter).updateAll env
        ({ e with timestamp := t } : Emitter).particles g).2.1.filter
          (fun p => !p.isDead)).length
        ≤ (({ e with timestamp := t } : Emitter).updateAll env
            ({ e with timestamp := t } : Emitter).particles g).2.1.length :=
          List.length_filter_le _ _
      _ = e.particles.length := Emitter.updateAll_length env _ _ g
  · exact hs.2.2.2.2.2.2.trans h

/-- One flow-mode update keeps the live count at or below a positive cap. -/
theorem Emitter.update_flow_le (env : Env) (e : Emitter) (t : ℚ) (g : Rng)
    (hm : e.mode = .flow) (hpos : 0 < e.maxParticles)
    (hle : e.particles.length ≤ e.maxParticles) :
    (e.update env t g).1.particles.length ≤ e.maxParticles := by
  unfold Emitter.update
  dsimp only
  split
  · calc ((({ e with timestamp := t } : Emitter).updateAll env
        ({ e with timestamp := t } : Emitter).particles g).2.1.filter
          (fun p => !p.isDead)).length
        ≤ (({ e with timestamp := t } : Emitter).updateAll env
            ({ e with timestamp := t } : Emitter).particles g).2.1.length :=
          List.length_filter_le _ _
      _ = e.particles.length := Emitter.updateAll_length env _ _ g
      _ ≤ e.maxParticles := hle
  · have hcr := Emitter.createPIN_flow_le env { e with timestamp := t } g hm hpos hle
    calc ((((
          { e with timestamp := t } : Emitter).createParticlesIfNecessary env g).1.updateAll env
            (({ e with timestamp := t } : Emitter).createParticlesIfNecessary env g).1.particles
            (({ e with timestamp := t } : Emitter).createParticlesIfNecessary env g).2).2.1.filter
              (fun p => !p.isDead)).length
        ≤ ((({ e with timestamp := t } : Emitter).createParticlesIfNecessary env g).1.updateAll env
            (({ e with timestamp := t } : Emitter).createParticlesIfNecessary env g).1.particles
            (({ e with timestamp := t } : Emitter).createParticlesIfNecessary env g).2).2.1.length :=
          List.length_filter_le _ _
      _ = (({ e with timestamp := t } : Emitter).createParticlesIfNecessary env g).1.particles.length :=
          Emitter.updateAll_length env _ _ _
      _ ≤ e.maxParticles := hcr

/-- Claim C3: for every flow-mode emitter with maxParticles = N > 0, after any
sequence of update calls the number of live particles never exceeds N. -/
theorem c3_flow_cap (env : Env) (e : Emitter) (ts : List ℚ) (g : Rng)
    (hm : e.mode = .flow) (hpos : 0 < e.maxParticles)
    (hle : e.particles.length ≤ e.maxParticles) :
    (e.updates env ts g).1.particles.length ≤ e.maxParticles := by
  induction ts generalizing e g with
  | nil => exact hle
  | cons t rest ih =>
    unfold Emitter.updates
    dsimp only
    have hcfg := Emitter.update_config env e t g
    have h := ih (e.update env t g).1 (e.update env t g).2
      (hcfg.1.trans hm) (hcfg.2.1 ▸ hpos)
      (le_of_le_of_eq (Emitter.update_flow_le env e t g hm hpos hle) hcfg.2.1.symm)
    exact le_of_le_of_eq h hcfg.2.1

/-- A concrete flow emitter with cap 3 used for the C3 witness. -/
def E3 : Emitter :=
  { mode := .flow, maxParticles := 3, drift := .num 0,
    frequency := ⟨0, 0⟩, particleLife := ⟨1000, 1000⟩, speed := ⟨0, 0⟩ }

/-- Concrete instance of C3: after five updates of the capped flow emitter E3
the live count is at most 3. -/
theorem c3_flow_cap_witness :
    (E3.updates env0 [1, 2, 3, 4, 5] rng0).1.particles.length ≤ E3.maxParticles :=
  c3_flow_cap env0 E3 [1, 2, 3, 4, 5] rng0 rfl (by decide) (by decide)

/-- Claim C4 (amended): burst is one-shot — the first update of a burst
emitter latches allParticlesCreated, and once the latch is set an update never
adds particles, no matter how much time has passed. -/
theorem c4_burst_one_shot (env : Env) (e : Emitter) (t : ℚ) (g : Rng) (hm : e.mode = .burst) :
    (e.allParticlesCreated = false → (e.update env t g).1.allParticlesCreated = true) ∧
    (e.allParticlesCreated = true → (e.update env t g).1.particles.length ≤ e.particles.length) := by
  constructor
  · intro hf
    unfold Emitter.update
    dsimp only
    rw [if_neg (show ¬({ e with timestamp := t } : Emitter).allParticlesCreated = true by
      simp [hf])]
    have hb := Emitter.createPIN_burst env { e with timestamp := t } g hm
    have hs := Emitter.updateAll_proj env
      (({ e with timestamp := t }).createParticlesIfNecessary env g).1
      (({ e with timestamp := t }).createParticlesIfNecessary env g).1.particles
      (({ e with timestamp := t }).createParticlesIfNecessary env g).2
    exact hs.2.2.2.2.2.2.trans hb.2
  · intro ht
    exact (Emitter.update_apc env e t g ht).1

/-- A concrete burst emitter used to settle C4. -/
def E4 : Emitter := { mode := .burst, maxParticles := 1, drift := .num 0 }

/-- The state of E4 after its first update (at t = 1) and a much later second
update (at t = 100), threading the random stream. -/
def E4run : Emitter :=
  ((E4.update env0 1 rng0).1.update env0 100 (E4.update env0 1 rng0).2).1

/-- Counterexample to C4 as stated: the burst emitter E4 (maxParticles = 1,
default particle life at least 2500 ms, so nothing has died) emits its burst
on the first update, but a much later update adds no second burst — the count
stays 1 instead of becoming 2. -/
theorem c4_counterexample_no_repeat :
    E4run.particles.length = 1 ∧ E4run.allParticlesCreated = true := by
  constructor
  · norm_num [E4run, E4, env0, rng0, Emitter.update, Emitter.createParticlesIfNecessary,
      Emitter.createN, Emitter.createParticle, Particle.create, Emitter.updateAll,
      Emitter.updateParticle, Particle.update, Particle.applyGravity, Particle.applyDrift,
      Particle.applyJitter, Particle.setDrift, Particle.isDead, Rng.next, getRandomBetween,
      getRandomFloatBetween, jsFloor]
  · norm_num [E4run, E4, env0, rng0, Emitter.update, Emitter.createParticlesIfNecessary,
      Emitter.createN, Emitter.createParticle, Particle.create, Emitter.updateAll,
      Emitter.updateParticle, Particle.update, Particle.applyGravity, Particle.applyDrift,
      Particle.applyJitter, Particle.setDrift, Particle.isDead, Rng.next, getRandomBetween,
      getRandomFloatBetween, jsFloor]

/-- A concrete already-latched burst emitter used for the C4 witness. -/
def E4w : Emitter := { mode := .burst, maxParticles := 5, drift := .num 0,
                       allParticlesCreated := true }

/-- Concrete instance of the amended C4 at the latched burst emitter E4w. -/
theorem c4_burst_one_shot_witness :
    (E4w.allParticlesCreated = false → (E4w.update env0 50 rng0).1.allParticlesCreated = true) ∧
    (E4w.allParticlesCreated = true → (E4w.update env0 50 rng0).1.particles.length ≤ E4w.particles.length) :=
  c4_burst_one_shot env0 E4w 50 rng0 rfl

/-- Claim C5 (amended): in flow mode, once a spawn has brought the live count
to exactly maxParticles the allParticlesCreated latch is set and emission
stops permanently — across any later sequence of updates the latch stays set
and the live count never increases again, even after particles die; spawning
resumes after a cap-skip only while the latch was never set. -/
theorem c5_flow_latch_permanent (env : Env) (e : Emitter) (ts : List ℚ) (g : Rng)
    (hm : e.mode = .flow) (h : e.allParticlesCreated = true) :
    (e.updates env ts g).1.particles.length ≤ e.particles.length ∧
    (e.updates env ts g).1.allParticlesCreated = true := by
  induction ts generalizing e g with
  | nil => exact ⟨le_refl _, h⟩
  | cons t rest ih =>
    unfold Emitter.updates
    dsimp only
    have hstep := Emitter.update_apc env e t g h
    have hcfg := Emitter.update_config env e t g
    have hrest := ih (e.update env t g).1 (e.update env t g).2
      (hcfg.1.trans hm) hstep.2
    exact ⟨hrest.1.trans hstep.1, hrest.2⟩

/-- A concrete flow emitter with cap 1, instant frequency and a 10 ms particle
life, used to settle C5. -/
def E5 : Emitter :=
  { mode := .flow, maxParticles := 1, drift := .num 0,
    frequency := ⟨0, 0⟩, particleLife := ⟨10, 10⟩, speed := ⟨0, 0⟩ }

/-- Counterexample to C5 as stated: E5 spawns its single particle at t = 1
(reaching the cap and latching allParticlesCreated), the particle dies and is
purged by t = 20, and at t = 40 — live count 0 < cap 1 and the emission gate
long since passed — no new particle is spawned: the count stays 0. -/
theorem c5_counterexample_no_respawn :
    (E5.updates env0 [1] rng0).1.particles.length = 1 ∧
    (E5.updates env0 [1, 20] rng0).1.particles.length = 0 ∧
    (E5.updates env0 [1, 20, 40] rng0).1.particles.length = 0 ∧
    (E5.updates env0 [1, 20, 40] rng0).1.allParticlesCreated = true := by
  refine ⟨?_, ?_, ?_, ?_⟩
  all_goals
    norm_num [E5, env0, rng0, Emitter.updates, Emitter.update,
      Emitter.createParticlesIfNecessary, Emitter.createN, Emitter.createParticle,
      Particle.create, Emitter.updateAll, Emitter.updateParticle, Particle.update,
      Particle.applyGravity, Particle.applyDrift, Particle.applyJitter,
      Particle.setDrift, Particle.isDead, Rng.next, getRandomBetween,
      getRandomFloatBetween, jsFloor]

/-- A concrete latched flow emitter used for the C5 witness. -/
def E5w : Emitter :=
  { mode := .flow, maxParticles := 2, drift := .num 0, allParticlesCreated := true,
    frequency := ⟨0, 0⟩, particleLife := ⟨10, 10⟩, speed := ⟨0, 0⟩ }

/-- Concrete instance of the amended C5 at the latched flow emitter E5w. -/
theorem c5_flow_latch_permanent_witness :
    (E5w.updates env0 [30, 60] rng0).1.particles.length ≤ E5w.particles.length ∧
    (E5w.updates env0 [30, 60] rng0).1.allParticlesCreated = true :=
  c5_flow_latch_permanent env0 E5w [30, 60] rng0 rfl rfl

/-- Claim C2 (amended): each burst emission appends exactly maxParticles new
particles, but each particle's spawn position is rolled independently inside
the spawn region — there is no single shared (x, y) for the burst. -/
theorem c2_burst_count (env : Env) (e : Emitter) (g : Rng) (hm : e.mode = .burst) :
    (e.createParticlesIfNecessary env g).1.particles.length
        = e.particles.length + e.maxParticles ∧
    (e.createParticlesIfNecessary env g).1.allParticlesCreated = true :=
  Emitter.createPIN_burst env e g hm

/-- A concrete burst emitter with two particles used to settle C2. -/
def E2 : Emitter := { mode := .burst, maxParticles := 2, drift := .num 0 }

/-- The random stream used for the C2 counterexample: the seventh draw (the
x roll of the second burst particle) differs from the first (the x roll of
the first one). -/
def g2 : Rng := ⟨fun n => if n = 6 then 1/2 else 0⟩

/-- Counterexample to C2 as stated: in the burst emitted by E2 during a single
update, the first particle spawns at x = 0 and the second at x = 10 — the two
particles of one burst do not share a spawn position. -/
theorem c2_counterexample_positions :
    ((E2.update env0 1 g2).1.particles.map Particle.x) = [0, 10] ∧ (0 : ℚ) ≠ 10 := by
  constructor
  · norm_num [E2, env0, g2, Emitter.update, Emitter.createParticlesIfNecessary,
      Emitter.createN, Emitter.createParticle, Particle.create, Emitter.updateAll,
      Emitter.updateParticle, Particle.update, Particle.applyGravity, Particle.applyDrift,
      Particle.applyJitter, Particle.setDrift, Particle.isDead, Rng.next, getRandomBetween,
      getRandomFloatBetween, jsFloor]
  · norm_num

/-- Concrete instance of the amended C2: the burst emitter E2 with an empty
collection emits exactly its maxParticles = 2 particles. -/
theorem c2_burst_count_witness :
    (E2.createParticlesIfNecessary env0 g2).1.particles.length
        = E2.particles.length + E2.maxParticles ∧
    (E2.createParticlesIfNecessary env0 g2).1.allParticlesCreated = true :=
  c2_burst_count env0 E2 g2 rfl

/-- The drift-cycle invariant against a configured drift value v: the carried
magnitude is 0 whenever the cycle is idle and within [0, v] whenever it is
drifting. -/
def Emitter.DriftInv (e : Emitter) (v : ℚ) : Prop :=
  (e.drifting = false → e.driftValue = 0) ∧
  (e.drifting = true → 0 ≤ e.driftValue ∧ e.driftValue ≤ v)

/-- The begin-drift transition preserves the drift-cycle invariant. -/
theorem Emitter.driftBegin_inv (e : Emitter) (d : DriftCfg) (g : Rng)
    (hv : 0 ≤ d.value) (h : e.DriftInv d.value) :
    (e.driftBegin d g).1.DriftInv d.value := by
  unfold Emitter.driftBegin
  split
  · exact ⟨fun hh => by simp at hh, fun _ => ⟨hv, le_refl _⟩⟩
  · exact h

/-- The end-drift decay preserves the drift-cycle invariant. -/
theorem Emitter.driftEnd_inv (e : Emitter) (d : DriftCfg) (g : Rng)
    (_hv : 0 ≤ d.value) (h : e.DriftInv d.value) :
    (e.driftEnd d g).1.DriftInv d.value := by
  unfold Emitter.driftEnd
  dsimp only
  split
  · next hcond =>
    have hb := h.2 hcond.1
    split
    · exact ⟨fun _ => rfl, fun hh => by simp at hh⟩
    · next hnn =>
      refine ⟨fun hh => by simp [hcond.1] at hh, fun _ => ⟨?_, ?_⟩⟩
      · simpa using le_of_not_lt hnn
      · have : (driftDecay : ℚ) > 0 := by norm_num [driftDecay]
        simp only
        linarith [hb.2]
  · exact h

/-- The full drift-cycle advance preserves the drift-cycle invariant. -/
theorem Emitter.driftStep_inv (e : Emitter) (d : DriftCfg) (g : Rng)
    (hv : 0 ≤ d.value) (h : e.DriftInv d.value) :
    (e.driftStep d g).1.DriftInv d.value := by
  unfold Emitter.driftStep
  exact Emitter.driftEnd_inv _ d _ hv (Emitter.driftBegin_inv e d g hv h)

/-- Claim C6 (amended): for an emitter with a drift configuration object whose
value is nonnegative, every per-particle update preserves the drift-cycle
invariant — the magnitude is 0 whenever the cycle is IDLE and lies in
[0, drift.value] whenever DRIFTING — and the magnitude pushed into the
particle is exactly the current cycle magnitude.  (When driftDuration has
elapsed the magnitude is not zeroed at once: it decays by driftDecay per
per-particle update, the cycle staying in DRIFTING, and only on crossing
below zero is it clamped to 0, driftInterval re-rolled and the cycle returned
to IDLE.) -/
theorem c6_drift_cycle_invariant (env : Env) (e : Emitter) (p : Particle) (g : Rng)
    (d : DriftCfg) (hd : e.drift = .obj d) (hv : 0 ≤ d.value)
    (h : e.DriftInv d.value) :
    (e.updateParticle env p g).1.DriftInv d.value ∧
    (e.updateParticle env p g).2.1.drift = (e.updateParticle env p g).1.driftValue := by
  unfold Emitter.updateParticle
  rw [hd]
  dsimp only
  refine ⟨Emitter.driftStep_inv e d g hv h, ?_⟩
  have hp := Particle.update_proj (p.setDrift (e.driftStep d g).1.driftValue)
    (e.driftStep d g).1.timestamp ((e.driftStep d g).1.timestamp - (e.driftStep d g).1.lastFrame)
  exact hp.2.2.trans rfl

/-- A concrete live particle owned by the C6 emitters. -/
def P6 : Particle :=
  { x := 0, y := 0, speed := 0, drift := 0, fx := 0, fy := 0, gravity := 0,
    jitter := 0, jitterForce := 0, jitterInterval := 0, lastJitter := 0,
    age := 0, lifespan := 0, birthdate := 0, dead := false, size := 1 }

/-- The drift configuration object (value 1, zero interval and duration) used
to settle C6. -/
def D6 : DriftCfg := { value := 1, interval := ⟨0, 0⟩, duration := ⟨0, 0⟩ }

/-- A concrete emitter mid-update (timestamp already stored, as Emitter.update
does before updateParticle runs) with the drift object D6, used to settle
C6. -/
def E6 : Emitter :=
  { particles := [P6], allParticlesCreated := true, timestamp := 1,
    drift := .obj D6 }

set_option maxRecDepth 4000 in
/-- Counterexample to C6 as stated: the per-particle update of E6 at
timestamp 1 starts a drift whose duration (0 ms) has already elapsed, yet the
magnitude is not zeroed and the cycle does not return to IDLE -- the value
only decays to 999/1000, the cycle stays DRIFTING, and 999/1000 is what is
pushed to the particle. -/
theorem c6_counterexample_gradual_decay :
    (E6.updateParticle env0 P6 rng0).1.driftValue = 999/1000 ∧
    (E6.updateParticle env0 P6 rng0).1.drifting = true ∧
    (E6.updateParticle env0 P6 rng0).2.1.drift = 999/1000 := by
  refine ⟨?_, ?_, ?_⟩
  all_goals
    norm_num [E6, D6, P6, env0, rng0, Emitter.updateParticle, Emitter.driftStep,
      Emitter.driftBegin, Emitter.driftEnd, driftDecay, Particle.update,
      Particle.applyGravity, Particle.applyDrift, Particle.applyJitter,
      Particle.setDrift, Rng.next, getRandomBetween, getRandomFloatBetween, jsFloor]

/-- Concrete instance of the amended C6 at the emitter E6 and particle P6. -/
theorem c6_drift_cycle_invariant_witness :
    (E6.updateParticle env0 P6 rng0).1.DriftInv 1 ∧
    (E6.updateParticle env0 P6 rng0).2.1.drift = (E6.updateParticle env0 P6 rng0).1.driftValue :=
  c6_drift_cycle_invariant env0 E6 P6 rng0
    { value := 1, interval := ⟨0, 0⟩, duration := ⟨0, 0⟩ } rfl (by norm_num)
    ⟨fun _ => rfl, fun hh => by simp [E6] at hh⟩

/-- What removeEmitter actually does on a lookup miss: Array.prototype.find
yields undefined, indexOf(undefined) yields -1, and splice(-1, 1) removes the
LAST element of the collection (dropLast) instead of nothing. -/
theorem Engine.removeEmitter_miss (E : Engine) (id : Nat) (h : E.getEmitter id = none) :
    (E.removeEmitter id).emitters = E.emitters.dropLast := by
  have hidx : jsIndexOf E.emitters (E.getEmitter id) = -1 := by rw [h]; rfl
  unfold Engine.removeEmitter
  rw [hidx]
  unfold jsSpliceRemove1
  dsimp only
  rw [if_pos (by norm_num : (-1 : Int) < 0)]
  have hs : (max ((E.emitters.length : Int) + -1) 0).toNat = E.emitters.length - 1 := by
    omega
  rw [hs, List.dropLast_eq_take]
  have hdrop : E.emitters.drop (E.emitters.length - 1 + 1) = [] := by
    apply List.drop_eq_nil_of_le
    omega
  rw [hdrop, List.append_nil]

/-- Claim C1, settled as a code bug: on the engine holding the single emitter
id 1, getEmitter(2) correctly reports not-found without throwing, but
removeEmitter(2) — an unknown id — does NOT leave the collection unchanged:
it removes emitter 1 (splice(indexOf(undefined), 1) = splice(-1, 1) deletes
the last element), emptying the collection. -/
theorem c1_removeEmitter_unknown_id_bug :
    ((({} : Engine).createEmitter).1.getEmitter 2 = none) ∧
    ((({} : Engine).createEmitter).1.emitters = [1]) ∧
    (((({} : Engine).createEmitter).1.removeEmitter 2).emitters = []) :=
  ⟨rfl, rfl, by decide⟩
